import Mathlib

/-!
Verification of the RTMP server core (handshake, chunk header codec,
protocol-control message builders, and the per-connection command state
machine) via a shallow embedding of the Go source into Lean.

Bytes are modelled as `Nat` values (< 256 on the wire); machine-integer
truncation (`uint8`/`uint16`/`uint32` casts) is made explicit with `% 2^w`.
Readers consume a `List Nat` byte stream and return the remaining stream;
fallible operations return `Except RtmpError`.  A Go runtime panic is
modelled as the distinguished error `RtmpError.panicOutOfRange`.
-/

deriving instance DecidableEq for Except

namespace Rtmp

/-- Errors of the embedded code.  The Go source uses `errors.New` strings;
each distinct error site gets one constructor here. -/
inductive RtmpError where
  | unknownFMT
  | invalidChunkStreamID
  | shortRead
  | panicOutOfRange
  | unsupportedVersion
  | randomEchoMismatch
  | releaseStreamOrder
  | publishOrder
  deriving DecidableEq, Repr

/-- Big-endian 32-bit serialisation (Go `binary.BigEndian.PutUint32`). -/
def be32 (n : Nat) : List Nat :=
  [n / 16777216 % 256, n / 65536 % 256, n / 256 % 256, n % 256]

/-- Little-endian 32-bit serialisation (Go `binary.LittleEndian.PutUint32`). -/
def le32 (n : Nat) : List Nat :=
  [n % 256, n / 256 % 256, n / 65536 % 256, n / 16777216 % 256]

/-- Big-endian 32-bit decode of a 4-byte list (Go `binary.BigEndian.Uint32`). -/
def beUint32 (b : List Nat) : Nat :=
  b.getD 0 0 * 16777216 + b.getD 1 0 * 65536 + b.getD 2 0 * 256 + b.getD 3 0

/-- Little-endian 32-bit decode (Go `binary.LittleEndian.Uint32`). -/
def leUint32 (b : List Nat) : Nat :=
  b.getD 3 0 * 16777216 + b.getD 2 0 * 65536 + b.getD 1 0 * 256 + b.getD 0 0

/-- Go `io.ReadAtLeast(br, x, n)` with `x := make([]byte, n)`: take exactly
`n` bytes off the stream or fail. -/
def readBytes (n : Nat) (b : List Nat) : Except RtmpError (List Nat × List Nat) :=
  if b.length < n then .error .shortRead else .ok (b.take n, b.drop n)

/-- `BasicHeader` of chunk.go: 2-bit format, chunk stream id. -/
structure BasicHeader where
  fmt : Nat
  chunkStreamID : Nat
  deriving DecidableEq, Repr

/-- `MessageHeader` of chunk.go. -/
structure MessageHeader where
  timestamp : Nat
  timestampDelta : Nat
  messageLength : Nat
  messageTypeID : Nat
  messageStreamID : Nat
  deriving DecidableEq, Repr

/-- `ChunkHeader` of chunk.go. -/
structure ChunkHeader where
  basicHeader : BasicHeader
  messageHeader : MessageHeader
  extendedTimestamp : Nat
  deriving DecidableEq, Repr

/-- chunk.go `genBasicHeader`.  Go `uint8` arithmetic is mod 256;
`FMT << 6` is `fmt * 64 % 256`, `uint16(csid-64)` is `(csid-64) % 65536`. -/
def genBasicHeader (bh : BasicHeader) : Except RtmpError (List Nat) :=
  if bh.chunkStreamID < 64 then
    .ok [(bh.chunkStreamID % 64 + bh.fmt * 64 % 256) % 256]
  else if bh.chunkStreamID < 320 then
    .ok [bh.fmt * 64 % 256, (bh.chunkStreamID - 64) % 256]
  else if bh.chunkStreamID < 65599 then
    .ok [(bh.fmt * 64 % 256 + 63) % 256,
         (bh.chunkStreamID - 64) % 65536 / 256, (bh.chunkStreamID - 64) % 256]
  else
    .error .invalidChunkStreamID

/-- chunk.go `readBasicHeader`: one byte, split into 2-bit fmt and 6-bit
csid marker; markers 0 and 1 select the 2- and 3-byte forms. -/
def readBasicHeader (b : List Nat) : Except RtmpError (BasicHeader × List Nat) :=
  match b with
  | [] => .error .shortRead
  | x :: rest =>
    let fm := x % 256 / 64
    let csid6 := x % 256 % 64
    if csid6 = 0 then
      match rest with
      | [] => .error .shortRead
      | y :: rest2 => .ok (⟨fm, y % 256 + 64⟩, rest2)
    else if csid6 = 1 then
      match rest with
      | y :: z :: rest2 => .ok (⟨fm, (y % 256) * 256 + z % 256 + 64⟩, rest2)
      | _ => .error .shortRead
    else
      .ok (⟨fm, csid6⟩, rest)

/-- chunk.go `genMessageHeader`.  Clamps timestamp and delta to `0xFFFFFF`
(strictly-greater check), then emits 11/7/3/0 bytes by format. -/
def genMessageHeader (mh : MessageHeader) (fm : Nat) : Except RtmpError (List Nat) :=
  let timestamp := if mh.timestamp > 16777215 then 16777215 else mh.timestamp
  let timestampDelta := if mh.timestampDelta > 16777215 then 16777215 else mh.timestampDelta
  match fm with
  | 0 =>
    .ok ([timestamp / 65536 % 256, timestamp / 256 % 256, timestamp % 256,
          mh.messageLength / 65536 % 256, mh.messageLength / 256 % 256,
          mh.messageLength % 256, mh.messageTypeID % 256] ++ le32 mh.messageStreamID)
  | 1 =>
    .ok [timestampDelta / 65536 % 256, timestampDelta / 256 % 256, timestampDelta % 256,
         mh.messageLength / 65536 % 256, mh.messageLength / 256 % 256,
         mh.messageLength % 256, mh.messageTypeID % 256]
  | 2 =>
    .ok [timestampDelta / 65536 % 256, timestampDelta / 256 % 256, timestampDelta % 256]
  | 3 => .ok []
  | _ => .error .unknownFMT

/-- chunk.go `readMessageHeader`.  NOTE (format 2): the Go code calls
`binary.BigEndian.Uint32(x)` on the 3-byte slice `x`, whose bounds check
`_ = b[3]` panics; modelled as `panicOutOfRange`. -/
def readMessageHeader (fm : Nat) (b : List Nat) :
    Except RtmpError (MessageHeader × List Nat) :=
  match fm with
  | 0 =>
    match readBytes 11 b with
    | .error e => .error e
    | .ok (x, rest) =>
      .ok ({ timestamp := beUint32 (0 :: x.take 3)
             timestampDelta := 0
             messageLength := beUint32 (0 :: (x.drop 3).take 3)
             messageTypeID := x.getD 6 0
             messageStreamID := leUint32 ((x.drop 7).take 4) }, rest)
  | 1 =>
    match readBytes 7 b with
    | .error e => .error e
    | .ok (x, rest) =>
      .ok ({ timestamp := 0
             timestampDelta := beUint32 (0 :: x.take 3)
             messageLength := beUint32 (0 :: (x.drop 3).take 3)
             messageTypeID := x.getD 6 0
             messageStreamID := 0 }, rest)
  | 2 =>
    match readBytes 3 b with
    | .error e => .error e
    | .ok (_, _) => .error .panicOutOfRange
  | 3 => .ok (⟨0, 0, 0, 0, 0⟩, b)
  | _ => .error .unknownFMT

/-- chunk.go `genChunkHeader`: basic header, message header, then a 4-byte
big-endian extended timestamp appended whenever `Timestamp >= 0xFFFFFF`
(else whenever `TimestampDelta >= 0xFFFFFF`), for every format. -/
def genChunkHeader (ch : ChunkHeader) : Except RtmpError (List Nat) :=
  match genBasicHeader ch.basicHeader with
  | .error e => .error e
  | .ok bh =>
    match genMessageHeader ch.messageHeader ch.basicHeader.fmt with
    | .error e => .error e
    | .ok mh =>
      let x := bh ++ mh
      if ch.messageHeader.timestamp ≥ 16777215 then
        .ok (x ++ be32 ch.messageHeader.timestamp)
      else if ch.messageHeader.timestampDelta ≥ 16777215 then
        .ok (x ++ be32 ch.messageHeader.timestampDelta)
      else
        .ok x

/-- chunk.go `readChunkHeader`: basic header, message header, then a 4-byte
extended timestamp exactly when the decoded timestamp or delta equals the
sentinel `0xFFFFFF`. -/
def readChunkHeader (b : List Nat) : Except RtmpError (ChunkHeader × List Nat) :=
  match readBasicHeader b with
  | .error e => .error e
  | .ok (bh, r1) =>
    match readMessageHeader bh.fmt r1 with
    | .error e => .error e
    | .ok (mh, r2) =>
      if mh.timestamp = 16777215 ∨ mh.timestampDelta = 16777215 then
        match readBytes 4 r2 with
        | .error e => .error e
        | .ok (x, r3) =>
          .ok ({ basicHeader := bh, messageHeader := mh,
                 extendedTimestamp := beUint32 x }, r3)
      else
        .ok ({ basicHeader := bh, messageHeader := mh, extendedTimestamp := 0 }, r2)

/-! ## Protocol-control and user-control message builders
(protocol_control_message.go, user_control_message.go) -/

/-- protocol_control_message.go `generateProtocolControlMessageHeader`:
format-0 chunk header on csid 2 with the given type id and length. -/
def generateProtocolControlMessageHeader (messageTypeID messageLength : Nat) : ChunkHeader :=
  { basicHeader := { fmt := 0, chunkStreamID := 2 }
    messageHeader :=
      { timestamp := 0, timestampDelta := 0, messageLength := messageLength
        messageTypeID := messageTypeID, messageStreamID := 0 }
    extendedTimestamp := 0 }

/-- protocol_control_message.go `GenerateSetChunkSize`: header (type 1,
length 4), big-endian size with the high bit of the first payload byte
cleared (`y[0] &= 0x7f`). -/
def GenerateSetChunkSize (chunkSize : Nat) : Except RtmpError (List Nat) :=
  match genChunkHeader (generateProtocolControlMessageHeader 1 4) with
  | .error e => .error e
  | .ok x =>
    let y := be32 chunkSize
    .ok (x ++ (y.getD 0 0 % 128 :: y.drop 1))

/-- protocol_control_message.go `GenerateWindowAcknowledgementSizeChunk`. -/
def GenerateWindowAcknowledgementSizeChunk (size : Nat) : Except RtmpError (List Nat) :=
  match genChunkHeader (generateProtocolControlMessageHeader 5 4) with
  | .error e => .error e
  | .ok x => .ok (x ++ be32 size)

/-- protocol_control_message.go `GenerateSetPeerBandwidthChunk`. -/
def GenerateSetPeerBandwidthChunk (size limitType : Nat) : Except RtmpError (List Nat) :=
  match genChunkHeader (generateProtocolControlMessageHeader 6 5) with
  | .error e => .error e
  | .ok x => .ok (x ++ be32 size ++ [limitType % 256])

/-- user_control_message.go `generateUserControlMessageHeader`:
format-0 chunk header on csid 2, type id 4. -/
def generateUserControlMessageHeader (messageLength : Nat) : ChunkHeader :=
  { basicHeader := { fmt := 0, chunkStreamID := 2 }
    messageHeader :=
      { timestamp := 0, timestampDelta := 0, messageLength := messageLength
        messageTypeID := 4, messageStreamID := 0 }
    extendedTimestamp := 0 }

/-- user_control_message.go `GenerateUserStreamBegin`: event type 0
(2 bytes big-endian) then the 4-byte big-endian stream id. -/
def GenerateUserStreamBegin (streamID : Nat) : Except RtmpError (List Nat) :=
  match genChunkHeader (generateUserControlMessageHeader 6) with
  | .error e => .error e
  | .ok x => .ok (x ++ [0, 0] ++ be32 streamID)

/-- The command-message file's `CreateOnStatusPublishStartMessage`: it
builds a `NetStreamStatusMessage` (`onStatus`, the transaction id, an info
object for `NetStream.Publish.Start`), serialises it with the external
goamf codec (`amf.WriteValue` in `NetStreamStatusMessage.Bytes`) into
`payload`, frames it with `genChunkHeader` on a format-0 basic header with
csid 3, message type id 20, `MessageLength: uint32(len(payload))` and
`MessageStreamID: uint32(math.Pow(2, 4*6))` = `0x01000000` = 16777216, and
returns header ++ payload.  The AMF codec is an external collaborator
(spec §1), so the bytes of `cmd.Bytes()` — a function of the transaction
id and stream name — appear here as the parameter `amfBody`; everything
else is the source verbatim. -/
def CreateOnStatusPublishStartMessage (amfBody : List Nat) : Except RtmpError (List Nat) :=
  match genChunkHeader
      { basicHeader := { fmt := 0, chunkStreamID := 3 }
        messageHeader :=
          { timestamp := 0, timestampDelta := 0
            messageLength := amfBody.length % 4294967296
            messageTypeID := 20, messageStreamID := 16777216 }
        extendedTimestamp := 0 } with
  | .error e => .error e
  | .ok x => .ok (x ++ amfBody)

/-! ## Handshake codec (handshake source file; C0/C1/C2 packet family) -/

/-- `chunkC0S0`: one version octet. -/
structure chunkC0S0 where
  version : Nat
  deriving DecidableEq, Repr

/-- `newChunkC0S0()`: the server always answers version 3. -/
def newChunkC0S0 : chunkC0S0 := ⟨3⟩

/-- `chunkC0S0.Bytes`. -/
def chunkC0S0.Bytes (c : chunkC0S0) : List Nat := [c.version % 256]

/-- `readC0S0`: take one byte off the stream. -/
def readC0S0 (b : List Nat) : Except RtmpError (chunkC0S0 × List Nat) :=
  match b with
  | [] => .error .shortRead
  | x :: rest => .ok (⟨x % 256⟩, rest)

/-- `chunkC1S1`: 4-byte time, 4 zero bytes, 1528 random bytes. -/
structure chunkC1S1 where
  time : Nat
  randomBytes : List Nat
  deriving DecidableEq, Repr

/-- `chunkC1S1.Bytes`: a 1536-byte buffer; `copy(chunk[8:], randomBytes)`
copies at most 1528 bytes and leaves the rest zero. -/
def chunkC1S1.Bytes (c : chunkC1S1) : List Nat :=
  be32 c.time ++ [0, 0, 0, 0] ++
    (c.randomBytes.take 1528 ++ List.replicate (1528 - c.randomBytes.length) 0)

/-- `readC1S1`: read exactly 1536 bytes; time from bytes [0,4),
random bytes are bytes [8,1536). -/
def readC1S1 (b : List Nat) : Except RtmpError (chunkC1S1 × List Nat) :=
  match readBytes 1536 b with
  | .error e => .error e
  | .ok (chunk, rest) => .ok (⟨beUint32 (chunk.take 4), chunk.drop 8⟩, rest)

/-- `chunkC2S2`: peer time, local time, 1528-byte random echo. -/
structure chunkC2S2 where
  time : Nat
  time2 : Nat
  randomEcho : List Nat
  deriving DecidableEq, Repr

/-- `newChunkC2S2(c)`: echo the peer's time and random bytes; `time2` is the
wall clock in milliseconds (`uint32` cast), supplied here as `now`. -/
def newChunkC2S2 (c : chunkC1S1) (now : Nat) : chunkC2S2 :=
  ⟨c.time, now % 4294967296, c.randomBytes⟩

/-- `chunkC2S2.Bytes`: time, time2, then the echo into bytes [8,1536). -/
def chunkC2S2.Bytes (c : chunkC2S2) : List Nat :=
  be32 c.time ++ be32 c.time2 ++
    (c.randomEcho.take 1528 ++ List.replicate (1528 - c.randomEcho.length) 0)

/-- `readC2S2`: read exactly 1536 bytes. -/
def readC2S2 (b : List Nat) : Except RtmpError (chunkC2S2 × List Nat) :=
  match readBytes 1536 b with
  | .error e => .error e
  | .ok (chunk, rest) =>
    .ok (⟨beUint32 (chunk.take 4), beUint32 ((chunk.drop 4).take 4), chunk.drop 8⟩, rest)

/-! ## Connection state machine (conn.go) -/

/-- conn.go `ConnectionState` (iota constants 0..6). -/
inductive ConnectionState where
  | stateUninitialized
  | stateVersionSent
  | stateAckSent
  | stateHandshakeDone
  | stateConnectResponseSent
  | stateSentCreateStreamResponse
  | statePublishingContent
  deriving DecidableEq, Repr

/-- The numeric value of each state (Go `iota`); Go compares states with
the integer order. -/
def ConnectionState.toNat : ConnectionState → Nat
  | .stateUninitialized => 0
  | .stateVersionSent => 1
  | .stateAckSent => 2
  | .stateHandshakeDone => 3
  | .stateConnectResponseSent => 4
  | .stateSentCreateStreamResponse => 5
  | .statePublishingContent => 6

/-- The mutable per-connection fields of conn.go's `conn` that the command
handler touches (buffers and socket are I/O plumbing). -/
structure Conn where
  state : ConnectionState
  chunkSize : Nat
  streamName : String
  deriving DecidableEq, Repr

/-- Result of `conn.handshake`.  Go mutates `c` in place and writes to the
buffered writer as it goes, so the bytes written, the state assignments
made, and the final connection survive an early error return:
`err` is `none` exactly when the Go method returns `nil`;
`writes` lists the flushed packets (S0, S1, S2) in order;
`states` lists the values assigned to `c.state`, in order. -/
structure HSResult where
  err : Option RtmpError
  conn : Conn
  writes : List (List Nat)
  states : List ConnectionState
  deriving DecidableEq, Repr

/-- conn.go `conn.handshake`, reading C0, C1, C2 sequentially from the
peer byte stream `input`.  The 1528 random bytes that `newChunkC1S1(0)`
draws from `crypto/rand` are the parameter `serverRandom`; the wall-clock
milliseconds used by `newChunkC2S2` are the parameter `now`. -/
def handshake (serverRandom : List Nat) (now : Nat) (input : List Nat) (c : Conn) :
    HSResult :=
  match readC0S0 input with
  | .error e => ⟨some e, c, [], []⟩
  | .ok (c0, r1) =>
    if 3 < c0.version then
      ⟨some .unsupportedVersion, c, [], []⟩
    else
      let s0 := newChunkC0S0.Bytes
      match readC1S1 r1 with
      | .error e => ⟨some e, { c with state := .stateVersionSent }, [s0],
                     [.stateVersionSent]⟩
      | .ok (c1, r2) =>
        let s1 : chunkC1S1 := ⟨0, serverRandom⟩
        let s2 := (newChunkC2S2 c1 now).Bytes
        match readC2S2 r2 with
        | .error e => ⟨some e, { c with state := .stateAckSent },
                       [s0, s1.Bytes, s2], [.stateVersionSent, .stateAckSent]⟩
        | .ok (c2, _) =>
          if c2.randomEcho = s1.randomBytes then
            ⟨none, { c with state := .stateHandshakeDone }, [s0, s1.Bytes, s2],
             [.stateVersionSent, .stateAckSent, .stateHandshakeDone]⟩
          else
            ⟨some .randomEchoMismatch, { c with state := .stateAckSent },
             [s0, s1.Bytes, s2], [.stateVersionSent, .stateAckSent]⟩

/-- An AMF0 command message after the payload has been drained and the
command name and transaction id parsed (conn.go reads the whole payload
with `io.ReadAtLeast` and decodes via the external AMF codec before the
`switch`; a parse failure returns that error with no state change and no
writes).  `fcPublish` carries its successfully parsed stream name; command
names outside the `switch` cases fall through to `unknown`. -/
inductive Command where
  | connect
  | releaseStream
  | fcPublish (streamName : String)
  | createStream
  | publish
  | unknown (name : String)
  deriving DecidableEq, Repr

/-- One response message written by `handleCommandMessageAMF0`.  The byte
contents of the AMF command responses (`GenerateConnectResult`,
`GenerateOnFCPublishMessage`, `CreateStreamResponseMessage`,
`CreateOnStatusPublishStartMessage`) embed their AMF payloads via the
external goamf codec; the state-machine claims only need which messages
are written, so each write is recorded as a token. -/
inductive Output where
  | windowAckSizeMsg
  | setPeerBandwidthMsg
  | userStreamBeginMsg (streamID : Nat)
  | setChunkSizeMsg (size : Nat)
  | connectResultMsg
  | onFCPublishMsg (streamName : String)
  | createStreamResponseMsg
  | onStatusPublishStartMsg (streamName : String)
  deriving DecidableEq, Repr

/-- conn.go `conn.handleCommandMessageAMF0`, as a function from the current
connection and the parsed command to (result, messages written).  Branches:
`connect` answers with five messages and sets `StateConnectResponseSent`
with no state check; `releaseStream` errors below `StateConnectResponseSent`
and otherwise does nothing; `FCPublish` has no state check, answers
`onFCPublish` and records the stream name; `createStream` has no state
check, answers and sets `StateSentCreateStreamResponse`; `publish` errors
below `StateSentCreateStreamResponse`, is a silent no-op when already
`StatePublishingContent`, and otherwise answers Stream Begin(1) plus
`onStatus(publish start)` and sets `StatePublishingContent`. -/
def handleCommandMessageAMF0 (c : Conn) (cmd : Command) :
    Except RtmpError Conn × List Output :=
  match cmd with
  | .connect =>
    (.ok { c with state := .stateConnectResponseSent },
     [.windowAckSizeMsg, .setPeerBandwidthMsg, .userStreamBeginMsg 0,
      .setChunkSizeMsg 4096, .connectResultMsg])
  | .releaseStream =>
    if c.state.toNat < ConnectionState.stateConnectResponseSent.toNat then
      (.error .releaseStreamOrder, [])
    else
      (.ok c, [])
  | .fcPublish streamName =>
    (.ok { c with streamName := streamName }, [.onFCPublishMsg streamName])
  | .createStream =>
    (.ok { c with state := .stateSentCreateStreamResponse }, [.createStreamResponseMsg])
  | .publish =>
    if c.state.toNat < ConnectionState.stateSentCreateStreamResponse.toNat then
      (.error .publishOrder, [])
    else if c.state = .statePublishingContent then
      (.ok c, [])
    else
      (.ok { c with state := .statePublishingContent },
       [.userStreamBeginMsg 1, .onStatusPublishStartMsg c.streamName])
  | .unknown _ => (.ok c, [])

/-- Boolean check that a list of state numbers never decreases from one
entry to the next. -/
def monotoneStates : List Nat → Bool
  | [] => true
  | [_] => true
  | a :: b :: t => decide (a ≤ b) && monotoneStates (b :: t)

/-- Conditions under which a `ChunkHeader` survives `genChunkHeader`
followed by `readChunkHeader` unchanged: a chunk stream id the encoder and
decoder agree on (2..319 — the encoder's 3-byte form writes csid marker 63
where the decoder expects marker 1, so csid ≥ 320 cannot round-trip), no
pending extended timestamp, every field within its wire width, the fields
the format does not emit equal to zero, and the emitted timestamp or delta
below the `0xFFFFFF` sentinel.  Format 2 is absent because the decoder's
format-2 branch panics (see `readMessageHeader`). -/
def roundTripSafe (ch : ChunkHeader) : Prop :=
  2 ≤ ch.basicHeader.chunkStreamID ∧ ch.basicHeader.chunkStreamID < 320 ∧
  ch.extendedTimestamp = 0 ∧
  ((ch.basicHeader.fmt = 0 ∧ ch.messageHeader.timestamp < 16777215 ∧
      ch.messageHeader.timestampDelta = 0 ∧
      ch.messageHeader.messageLength < 16777216 ∧
      ch.messageHeader.messageTypeID < 256 ∧
      ch.messageHeader.messageStreamID < 4294967296) ∨
   (ch.basicHeader.fmt = 1 ∧ ch.messageHeader.timestamp = 0 ∧
      ch.messageHeader.timestampDelta < 16777215 ∧
      ch.messageHeader.messageLength < 16777216 ∧
      ch.messageHeader.messageTypeID < 256 ∧
      ch.messageHeader.messageStreamID = 0) ∨
   (ch.basicHeader.fmt = 3 ∧ ch.messageHeader.timestamp = 0 ∧
      ch.messageHeader.timestampDelta = 0 ∧
      ch.messageHeader.messageLength = 0 ∧
      ch.messageHeader.messageTypeID = 0 ∧
      ch.messageHeader.messageStreamID = 0))

/-! ## Theorems -/

/-- Reading exactly the length of a prefix returns that prefix. -/
theorem readBytes_append (l rest : List Nat) :
    readBytes l.length (l ++ rest) = .ok (l, rest) := by
  rw [readBytes, if_neg (by rw [List.length_append]; omega),
    List.take_left, List.drop_left]

/-- Big-endian decode of an explicit 4-byte list. -/
theorem beUint32_quad (w x y z : Nat) :
    beUint32 [w, x, y, z] = w * 16777216 + x * 65536 + y * 256 + z := rfl

/-- Little-endian decode of an explicit 4-byte list. -/
theorem leUint32_quad (w x y z : Nat) :
    leUint32 [w, x, y, z] = z * 16777216 + y * 65536 + x * 256 + w := rfl

/-- Format-0 message header decode on an explicit 11-byte prefix. -/
theorem readMessageHeader0_cons (a0 a1 a2 a3 a4 a5 a6 a7 a8 a9 a10 : Nat)
    (rest : List Nat) :
    readMessageHeader 0 ([a0, a1, a2, a3, a4, a5, a6, a7, a8, a9, a10] ++ rest) =
      .ok (⟨beUint32 [0, a0, a1, a2], 0, beUint32 [0, a3, a4, a5], a6,
            leUint32 [a7, a8, a9, a10]⟩, rest) := rfl

/-- Format-1 message header decode on an explicit 7-byte prefix. -/
theorem readMessageHeader1_cons (a0 a1 a2 a3 a4 a5 a6 : Nat) (rest : List Nat) :
    readMessageHeader 1 ([a0, a1, a2, a3, a4, a5, a6] ++ rest) =
      .ok (⟨0, beUint32 [0, a0, a1, a2], beUint32 [0, a3, a4, a5], a6, 0⟩, rest) := rfl

/-- Round trip of the basic header for chunk stream ids 2..319 (the 1- and
2-byte wire forms). -/
theorem genBasicHeader_roundTrip (fm csid : Nat) (hf : fm < 4) (h2 : 2 ≤ csid)
    (h320 : csid < 320) (rest : List Nat) :
    ∃ out, genBasicHeader ⟨fm, csid⟩ = .ok out ∧
      readBasicHeader (out ++ rest) = .ok (⟨fm, csid⟩, rest) := by
  by_cases h64 : csid < 64
  · refine ⟨[(csid % 64 + fm * 64 % 256) % 256], ?_, ?_⟩
    · simp only [genBasicHeader, if_pos h64]
    · have hx : (csid % 64 + fm * 64 % 256) % 256 = fm * 64 + csid := by omega
      rw [List.cons_append, List.nil_append, hx]
      simp only [readBasicHeader]
      rw [if_neg (by omega), if_neg (by omega)]
      simp only [Except.ok.injEq, Prod.mk.injEq, BasicHeader.mk.injEq, and_true]
      omega
  · refine ⟨[fm * 64 % 256, (csid - 64) % 256], ?_, ?_⟩
    · simp only [genBasicHeader]
      rw [if_neg (by omega), if_pos (by omega)]
    · simp only [List.cons_append, List.nil_append, readBasicHeader]
      rw [if_pos (by omega)]
      simp only [Except.ok.injEq, Prod.mk.injEq, BasicHeader.mk.injEq, and_true]
      omega

/-- Round trip of the format-0 message header when every field fits its
wire width, the delta (not emitted) is zero and the timestamp is below the
sentinel. -/
theorem genMessageHeader_roundTrip0 (ts ml tid sid : Nat)
    (hts : ts < 16777215) (hml : ml < 16777216) (htid : tid < 256)
    (hsid : sid < 4294967296) (rest : List Nat) :
    ∃ out, genMessageHeader ⟨ts, 0, ml, tid, sid⟩ 0 = .ok out ∧
      readMessageHeader 0 (out ++ rest) = .ok (⟨ts, 0, ml, tid, sid⟩, rest) := by
  refine ⟨[ts / 65536 % 256, ts / 256 % 256, ts % 256,
           ml / 65536 % 256, ml / 256 % 256, ml % 256, tid % 256,
           sid % 256, sid / 256 % 256, sid / 65536 % 256, sid / 16777216 % 256],
          ?_, ?_⟩
  · simp only [genMessageHeader, le32, List.cons_append, List.nil_append]
    rw [if_neg (show ¬ts > 16777215 by omega)]
  · rw [readMessageHeader0_cons]
    simp only [beUint32_quad, leUint32_quad, Except.ok.injEq, Prod.mk.injEq,
      MessageHeader.mk.injEq, and_true, true_and]
    omega

/-- Round trip of the format-1 message header when every field fits its
wire width, the fields not emitted are zero and the delta is below the
sentinel. -/
theorem genMessageHeader_roundTrip1 (td ml tid : Nat)
    (htd : td < 16777215) (hml : ml < 16777216) (htid : tid < 256)
    (rest : List Nat) :
    ∃ out, genMessageHeader ⟨0, td, ml, tid, 0⟩ 1 = .ok out ∧
      readMessageHeader 1 (out ++ rest) = .ok (⟨0, td, ml, tid, 0⟩, rest) := by
  refine ⟨[td / 65536 % 256, td / 256 % 256, td % 256,
           ml / 65536 % 256, ml / 256 % 256, ml % 256, tid % 256], ?_, ?_⟩
  · simp only [genMessageHeader]
    rw [if_neg (show ¬td > 16777215 by omega)]
  · rw [readMessageHeader1_cons]
    simp only [beUint32_quad, Except.ok.injEq, Prod.mk.injEq,
      MessageHeader.mk.injEq, and_true, true_and]
    omega

/-- Big-endian 32-bit decode then encode is the identity on 4-byte lists. -/
theorem be32_beUint32 (l : List Nat) (h4 : l.length = 4)
    (hb : ∀ x ∈ l, x < 256) : be32 (beUint32 l) = l := by
  obtain ⟨a, b, c, d, rfl⟩ : ∃ a b c d, l = [a, b, c, d] := by
    rcases l with _ | ⟨a, _ | ⟨b, _ | ⟨c, _ | ⟨d, _ | ⟨e, t⟩⟩⟩⟩⟩ <;>
      first
      | exact ⟨a, b, c, d, rfl⟩
      | simp at h4
  have ha := hb a (by simp)
  have hbb := hb b (by simp)
  have hc := hb c (by simp)
  have hd := hb d (by simp)
  simp only [be32, beUint32, List.getD_cons_zero, List.getD_cons_succ,
    List.cons.injEq, and_true]
  refine ⟨?_, ?_, ?_, ?_⟩ <;> omega

/-- C8: `GenerateWindowAcknowledgementSizeChunk(2500000)`,
`GenerateSetPeerBandwidthChunk(2500000, Dynamic=2)`,
`GenerateSetChunkSize(4096)` and `GenerateUserStreamBegin(0)` produce
exactly the spec's reference byte sequences (16, 17, 16 and 18 bytes):
format-0 basic header on csid 2, format-0 message header with the right
type id and payload length, then the big-endian payload (Set Chunk Size
with the high bit of the payload cleared). -/
theorem claim_C8_reference_byte_sequences :
    GenerateWindowAcknowledgementSizeChunk 2500000 =
      .ok [0x02, 0x00, 0x00, 0x00, 0x00, 0x00, 0x04, 0x05, 0x00, 0x00, 0x00, 0x00,
           0x00, 0x26, 0x25, 0xA0] ∧
    GenerateSetPeerBandwidthChunk 2500000 2 =
      .ok [0x02, 0x00, 0x00, 0x00, 0x00, 0x00, 0x05, 0x06, 0x00, 0x00, 0x00, 0x00,
           0x00, 0x26, 0x25, 0xA0, 0x02] ∧
    GenerateSetChunkSize 4096 =
      .ok [0x02, 0x00, 0x00, 0x00, 0x00, 0x00, 0x04, 0x01, 0x00, 0x00, 0x00, 0x00,
           0x00, 0x00, 0x10, 0x00] ∧
    GenerateUserStreamBegin 0 =
      .ok [0x02, 0x00, 0x00, 0x00, 0x00, 0x00, 0x06, 0x04, 0x00, 0x00, 0x00, 0x00,
           0x00, 0x00, 0x00, 0x00, 0x00, 0x00] := by
  decide

/-- C4 (code bug): `genBasicHeader` rejects chunk stream id 65599 with
`InvalidChunkStreamId` — its guard is `csid < 65599`, so the error fires for
csid ≥ 65599, not ≥ 65600 as the spec states — while 65598 still encodes in
the 3-byte form.  The decoder's own doc comment ("Chunk stream IDs:
64-65599") and `readBasicHeader` (which decodes the 3-byte form up to
65599) treat 65599 as valid, so the encoder's strict bound is an
off-by-one slip. -/
theorem claim_C4_csid_65599_rejected :
    genBasicHeader ⟨0, 65599⟩ = .error .invalidChunkStreamID ∧
    genBasicHeader ⟨0, 65598⟩ = .ok [63, 255, 254] := by
  decide

/-- C10: a `publish` command arriving when the state is already
`StatePublishingContent` is silently ignored: the handler (having drained
the payload on entry) returns success, writes nothing, and leaves the
state, chunk size and stream name unchanged. -/
theorem claim_C10_duplicate_publish (c : Conn)
    (h : c.state = .statePublishingContent) :
    handleCommandMessageAMF0 c .publish = (.ok c, []) := by
  simp [handleCommandMessageAMF0, h, ConnectionState.toNat]

/-- C10 witness: concrete evaluation at a publishing connection. -/
theorem claim_C10_duplicate_publish_witness :
    handleCommandMessageAMF0 ⟨.statePublishingContent, 4096, "live"⟩ .publish =
      (.ok ⟨.statePublishingContent, 4096, "live"⟩, []) :=
  claim_C10_duplicate_publish ⟨.statePublishingContent, 4096, "live"⟩ rfl

/-- C3 counterexample: a `createStream` received at `StateHandshakeDone` —
a state strictly below `StateConnectResponseSent` — is not a protocol
error: the handler answers with the createStream response and advances the
state, because the `createStream` (and `FCPublish`) branches of
`handleCommandMessageAMF0` perform no state check at all. -/
theorem claim_C3_counterexample :
    handleCommandMessageAMF0 ⟨.stateHandshakeDone, 0, ""⟩ .createStream =
      (.ok ⟨.stateSentCreateStreamResponse, 0, ""⟩, [.createStreamResponseMsg]) ∧
    ConnectionState.stateHandshakeDone.toNat <
      ConnectionState.stateConnectResponseSent.toNat := by
  decide

/-- C3 amended: only `releaseStream` (below `StateConnectResponseSent`) and
`publish` (below `StateSentCreateStreamResponse`) are rejected as protocol
errors with no bytes written; `FCPublish` and `createStream` carry no state
check and are answered at any state. -/
theorem claim_C3_amended (c : Conn) :
    (c.state.toNat < ConnectionState.stateConnectResponseSent.toNat →
      handleCommandMessageAMF0 c .releaseStream = (.error .releaseStreamOrder, [])) ∧
    (c.state.toNat < ConnectionState.stateSentCreateStreamResponse.toNat →
      handleCommandMessageAMF0 c .publish = (.error .publishOrder, [])) ∧
    (∀ s, handleCommandMessageAMF0 c (.fcPublish s) =
      (.ok { c with streamName := s }, [.onFCPublishMsg s])) ∧
    handleCommandMessageAMF0 c .createStream =
      (.ok { c with state := .stateSentCreateStreamResponse },
       [.createStreamResponseMsg]) := by
  refine ⟨fun h => ?_, fun h => ?_, fun s => ?_, ?_⟩ <;>
    simp [handleCommandMessageAMF0]
  · exact h
  · intro hlt
    omega

/-- C3 witness: at `StateHandshakeDone`, `releaseStream` and `publish` are
both rejected with no output. -/
theorem claim_C3_amended_witness :
    handleCommandMessageAMF0 ⟨.stateHandshakeDone, 0, ""⟩ .releaseStream =
      (.error .releaseStreamOrder, []) ∧
    handleCommandMessageAMF0 ⟨.stateHandshakeDone, 0, ""⟩ .publish =
      (.error .publishOrder, []) :=
  ⟨(claim_C3_amended ⟨.stateHandshakeDone, 0, ""⟩).1 (by decide),
   (claim_C3_amended ⟨.stateHandshakeDone, 0, ""⟩).2.1 (by decide)⟩

/-- C2 counterexample: the run connect, createStream, publish, connect —
commands the handler accepts in this order — drives the state to
`StatePublishingContent` (6) and then back down to
`StateConnectResponseSent` (4): the `connect` branch assigns its target
state with no state check, so the state machine is not monotone over every
command order. -/
theorem claim_C2_counterexample :
    handleCommandMessageAMF0 ⟨.stateHandshakeDone, 0, ""⟩ .connect =
      (.ok ⟨.stateConnectResponseSent, 0, ""⟩,
       [.windowAckSizeMsg, .setPeerBandwidthMsg, .userStreamBeginMsg 0,
        .setChunkSizeMsg 4096, .connectResultMsg]) ∧
    handleCommandMessageAMF0 ⟨.stateConnectResponseSent, 0, ""⟩ .createStream =
      (.ok ⟨.stateSentCreateStreamResponse, 0, ""⟩, [.createStreamResponseMsg]) ∧
    handleCommandMessageAMF0 ⟨.stateSentCreateStreamResponse, 0, ""⟩ .publish =
      (.ok ⟨.statePublishingContent, 0, ""⟩,
       [.userStreamBeginMsg 1, .onStatusPublishStartMsg ""]) ∧
    handleCommandMessageAMF0 ⟨.statePublishingContent, 0, ""⟩ .connect =
      (.ok ⟨.stateConnectResponseSent, 0, ""⟩,
       [.windowAckSizeMsg, .setPeerBandwidthMsg, .userStreamBeginMsg 0,
        .setChunkSizeMsg 4096, .connectResultMsg]) ∧
    ConnectionState.stateConnectResponseSent.toNat <
      ConnectionState.statePublishingContent.toNat := by
  decide

/-- C2 amended: the handshake assigns states in the nondecreasing order
VersionSent, AckSent, HandshakeDone, and a successful command step never
lowers the state, provided a `connect` arrives only while the state is at
most `StateConnectResponseSent` and a `createStream` only while it is at
most `StateSentCreateStreamResponse` (a late `connect` or `createStream`
resets the state downward, as the counterexample shows). -/
theorem claim_C2_amended :
    (∀ serverRandom now input c, c.state = .stateUninitialized →
      monotoneStates
        ((c.state :: (handshake serverRandom now input c).states).map
          ConnectionState.toNat) = true) ∧
    (∀ c cmd c2 outs, handleCommandMessageAMF0 c cmd = (.ok c2, outs) →
      (cmd = .connect →
        c.state.toNat ≤ ConnectionState.stateConnectResponseSent.toNat) →
      (cmd = .createStream →
        c.state.toNat ≤ ConnectionState.stateSentCreateStreamResponse.toNat) →
      c.state.toNat ≤ c2.state.toNat) := by
  constructor
  · intro serverRandom now input c h
    rw [h]
    unfold handshake
    split
    · rfl
    · split
      · rfl
      · split
        · rfl
        · split
          · rfl
          · dsimp only
            split
            · rfl
            · rfl
  · intro c cmd c2 outs h hconnect hcreate
    cases cmd with
    | connect =>
      simp only [handleCommandMessageAMF0, Prod.mk.injEq, Except.ok.injEq] at h
      rw [← h.1]
      exact hconnect rfl
    | releaseStream =>
      simp only [handleCommandMessageAMF0] at h
      split at h
      · simp at h
      · simp only [Prod.mk.injEq, Except.ok.injEq] at h
        rw [← h.1]
    | fcPublish s =>
      simp only [handleCommandMessageAMF0, Prod.mk.injEq, Except.ok.injEq] at h
      rw [← h.1]
    | createStream =>
      simp only [handleCommandMessageAMF0, Prod.mk.injEq, Except.ok.injEq] at h
      rw [← h.1]
      exact hcreate rfl
    | publish =>
      simp only [handleCommandMessageAMF0] at h
      split at h
      · simp at h
      · split at h <;> simp only [Prod.mk.injEq, Except.ok.injEq] at h <;> rw [← h.1]
        cases hs : c.state <;> simp [ConnectionState.toNat]
    | unknown s =>
      simp only [handleCommandMessageAMF0, Prod.mk.injEq, Except.ok.injEq] at h
      rw [← h.1]

/-- C2 witness: a concrete handshake prefix yields a nondecreasing state
trace, and a concrete `connect` step at `StateHandshakeDone` does not lower
the state. -/
theorem claim_C2_amended_witness :
    monotoneStates
      (((⟨.stateUninitialized, 0, ""⟩ : Conn).state ::
        (handshake [] 0 [3] ⟨.stateUninitialized, 0, ""⟩).states).map
        ConnectionState.toNat) = true ∧
    (⟨.stateHandshakeDone, 0, ""⟩ : Conn).state.toNat ≤
      (⟨.stateConnectResponseSent, 0, ""⟩ : Conn).state.toNat :=
  ⟨claim_C2_amended.1 [] 0 [3] ⟨.stateUninitialized, 0, ""⟩ rfl,
   claim_C2_amended.2 ⟨.stateHandshakeDone, 0, ""⟩ .connect
     ⟨.stateConnectResponseSent, 0, ""⟩
     [.windowAckSizeMsg, .setPeerBandwidthMsg, .userStreamBeginMsg 0,
      .setChunkSizeMsg 4096, .connectResultMsg]
     rfl (fun _ => by decide) (fun h => nomatch h)⟩

/-- C5 counterexample: a format-3 chunk header (whose message header is
empty) with timestamp `0xFFFFFF` is followed by a 4-byte extended
timestamp: `genChunkHeader` appends the extension whenever the logical
timestamp or delta reaches the sentinel, with no check on the format. -/
theorem claim_C5_counterexample :
    genChunkHeader ⟨⟨3, 2⟩, ⟨16777215, 0, 0, 0, 0⟩, 0⟩ =
      .ok [194, 0, 255, 255, 255] ∧
    genMessageHeader ⟨16777215, 0, 0, 0, 0⟩ 3 = .ok [] := by
  decide

/-- C5 amended: whenever basic and message header both encode, the chunk
header is their concatenation followed by a 4-byte big-endian extended
timestamp exactly when the logical 32-bit `Timestamp` reaches `0xFFFFFF`
(in which case it carries `Timestamp`) or, failing that, when
`TimestampDelta` does (carrying `TimestampDelta`) — with no check on the
format, so even a format-3 header can be followed by the extension; and
for formats 0/1/2 the emitted 24-bit timestamp or delta field is clamped
to `0xFFFFFF` when the logical value exceeds it. -/
theorem claim_C5_amended (ch : ChunkHeader) (bhB mhB : List Nat)
    (h1 : genBasicHeader ch.basicHeader = .ok bhB)
    (h2 : genMessageHeader ch.messageHeader ch.basicHeader.fmt = .ok mhB) :
    genChunkHeader ch =
      .ok (bhB ++ mhB ++
        (if 16777215 ≤ ch.messageHeader.timestamp then
          be32 ch.messageHeader.timestamp
        else if 16777215 ≤ ch.messageHeader.timestampDelta then
          be32 ch.messageHeader.timestampDelta
        else [])) ∧
    (ch.basicHeader.fmt = 0 → 16777215 < ch.messageHeader.timestamp →
      mhB.take 3 = [255, 255, 255]) ∧
    ((ch.basicHeader.fmt = 1 ∨ ch.basicHeader.fmt = 2) →
      16777215 < ch.messageHeader.timestampDelta →
      mhB.take 3 = [255, 255, 255]) := by
  refine ⟨?_, ?_, ?_⟩
  · simp only [genChunkHeader, h1, h2]
    split_ifs <;> simp
  · intro hf ht
    rw [hf] at h2
    simp only [genMessageHeader, if_pos ht, Except.ok.injEq] at h2
    rw [← h2]
    norm_num
  · rintro (hf | hf) hd <;> rw [hf] at h2 <;>
      simp only [genMessageHeader, if_pos hd, Except.ok.injEq] at h2 <;>
      rw [← h2] <;> norm_num

/-- C5 witness: a format-1 header with delta `2^25` emits the clamped
3-byte delta `FF FF FF` followed by the 4-byte extension `02 00 00 00`. -/
theorem claim_C5_amended_witness :
    genChunkHeader ⟨⟨1, 2⟩, ⟨0, 33554432, 0, 0, 0⟩, 0⟩ =
      .ok ([66] ++ [255, 255, 255, 0, 0, 0, 0] ++
        (if (16777215 : Nat) ≤ 0 then be32 0
         else if (16777215 : Nat) ≤ 33554432 then be32 33554432 else [])) ∧
    ([255, 255, 255, 0, 0, 0, 0] : List Nat).take 3 = [255, 255, 255] :=
  ⟨(claim_C5_amended ⟨⟨1, 2⟩, ⟨0, 33554432, 0, 0, 0⟩, 0⟩ [66]
      [255, 255, 255, 0, 0, 0, 0] (by decide) (by decide)).1,
   (claim_C5_amended ⟨⟨1, 2⟩, ⟨0, 33554432, 0, 0, 0⟩, 0⟩ [66]
      [255, 255, 255, 0, 0, 0, 0] (by decide) (by decide)).2.2
     (Or.inl rfl) (by decide)⟩

/-- C9: `CreateOnStatusPublishStartMessage` (for any AMF body, hence any
transaction id and stream name) emits one format-0 chunk on csid 3 with
type id 20, a message length equal to the AMF body's length, and message
stream id `0x01000000` serialised little-endian on the wire as
`00 00 00 01`, followed by the body. -/
theorem claim_C9_onstatus_publish_header (b : List Nat)
    (h : b.length < 16777216) :
    CreateOnStatusPublishStartMessage b =
      .ok ([3, 0, 0, 0, b.length / 65536, b.length / 256 % 256, b.length % 256,
            20, 0, 0, 0, 1] ++ b) := by
  have h32 : b.length % 4294967296 = b.length := Nat.mod_eq_of_lt (by omega)
  simp only [CreateOnStatusPublishStartMessage, genChunkHeader, genBasicHeader,
    genMessageHeader, le32, h32]
  norm_num
  omega

/-- C1 counterexample: the format-3 chunk header with csid 3 and timestamp
5 encodes to the single byte `0xC3`, which decodes to a header whose
timestamp is 0 — format 3 emits no message header fields, so a header with
any nonzero field cannot round-trip. -/
theorem claim_C1_counterexample :
    genChunkHeader ⟨⟨3, 3⟩, ⟨5, 0, 0, 0, 0⟩, 0⟩ = .ok [195] ∧
    readChunkHeader [195] = .ok (⟨⟨3, 3⟩, ⟨0, 0, 0, 0, 0⟩, 0⟩, []) ∧
    (⟨⟨3, 3⟩, ⟨0, 0, 0, 0, 0⟩, 0⟩ : ChunkHeader) ≠ ⟨⟨3, 3⟩, ⟨5, 0, 0, 0, 0⟩, 0⟩ := by
  decide

/-- C1 amended: decode after encode is the identity on the headers of
`roundTripSafe`: csid in [2,319], formats 0, 1 and 3, every field within
its wire width, the fields the format does not emit zero, the emitted
timestamp or delta below the `0xFFFFFF` sentinel, and no pending extended
timestamp; the whole encoded byte sequence is consumed. -/
theorem claim_C1_amended (ch : ChunkHeader) (h : roundTripSafe ch) :
    ∃ out, genChunkHeader ch = .ok out ∧ readChunkHeader out = .ok (ch, []) := by
  obtain ⟨⟨fm, csid⟩, ⟨ts, td, ml, tid, sid⟩, ext⟩ := ch
  simp only [roundTripSafe] at h
  obtain ⟨hcs2, hcs320, hext, hcase⟩ := h
  subst hext
  rcases hcase with ⟨hf, hts, htd, hml, htid, hsid⟩ |
    ⟨hf, hts, htd, hml, htid, hsid⟩ | ⟨hf, hts, htd, hml, htid, hsid⟩
  · subst hf
    subst htd
    obtain ⟨outM, hgM, hrM⟩ :=
      genMessageHeader_roundTrip0 ts ml tid sid hts hml htid hsid []
    rw [List.append_nil] at hrM
    obtain ⟨outB, hgB, hrB⟩ :=
      genBasicHeader_roundTrip 0 csid (by omega) hcs2 hcs320 outM
    refine ⟨outB ++ outM, ?_, ?_⟩
    · simp only [genChunkHeader, hgB, hgM]
      rw [if_neg (show ¬ts ≥ 16777215 by omega)]
      norm_num
    · simp only [readChunkHeader, hrB, hrM]
      rw [if_neg (by omega)]
  · subst hf
    subst hts
    subst hsid
    obtain ⟨outM, hgM, hrM⟩ := genMessageHeader_roundTrip1 td ml tid htd hml htid []
    rw [List.append_nil] at hrM
    obtain ⟨outB, hgB, hrB⟩ :=
      genBasicHeader_roundTrip 1 csid (by omega) hcs2 hcs320 outM
    refine ⟨outB ++ outM, ?_, ?_⟩
    · simp only [genChunkHeader, hgB, hgM]
      rw [if_neg (show ¬(0 : Nat) ≥ 16777215 by omega),
        if_neg (show ¬td ≥ 16777215 by omega)]
    · simp only [readChunkHeader, hrB, hrM]
      rw [if_neg (by omega)]
  · subst hf
    subst hts
    subst htd
    subst hml
    subst htid
    subst hsid
    obtain ⟨outB, hgB, hrB⟩ :=
      genBasicHeader_roundTrip 3 csid (by omega) hcs2 hcs320 []
    refine ⟨outB ++ [], ?_, ?_⟩
    · simp only [genChunkHeader, hgB, genMessageHeader]
      norm_num
    · simp only [readChunkHeader, hrB, readMessageHeader]
      norm_num

/-- C1 witness: the test vector `{BH{0,3}, MH{ts 0, len 184, type 20,
stream 0}}` round-trips through its 12-byte encoding. -/
theorem claim_C1_amended_witness :
    ∃ out, genChunkHeader ⟨⟨0, 3⟩, ⟨0, 0, 184, 20, 0⟩, 0⟩ = .ok out ∧
      readChunkHeader out = .ok (⟨⟨0, 3⟩, ⟨0, 0, 184, 20, 0⟩, 0⟩, []) :=
  claim_C1_amended ⟨⟨0, 3⟩, ⟨0, 0, 184, 20, 0⟩, 0⟩
    (by unfold roundTripSafe; decide)

/-- C7: for every parsed 1536-byte C1 chunk, the S2 produced by
`newChunkC2S2` serialises to exactly 1536 bytes whose bytes [0,4) equal the
C1's timestamp field verbatim (big-endian re-encoding of the big-endian-
decoded value) and whose bytes [8,1536) equal the C1's bytes [8,1536) —
the peer's 1528 random bytes echoed unchanged — for any local clock value
`now`. -/
theorem claim_C7_s2_echoes_c1 (b : List Nat) (now : Nat) (c : chunkC1S1)
    (rest : List Nat) (hlen : b.length = 1536) (hbytes : ∀ x ∈ b, x < 256)
    (hread : readC1S1 b = .ok (c, rest)) :
    ((newChunkC2S2 c now).Bytes).length = 1536 ∧
    ((newChunkC2S2 c now).Bytes).take 4 = b.take 4 ∧
    ((newChunkC2S2 c now).Bytes).drop 8 = b.drop 8 := by
  have e3 : b.take 1536 = b := by rw [← hlen, List.take_length]
  have hnlt : ¬(b.length < 1536) := by omega
  rw [readC1S1, readBytes, if_neg hnlt, e3] at hread
  have hc : c = ⟨beUint32 (b.take 4), b.drop 8⟩ := by
    cases hread
    rfl
  subst hc
  have hdlen : (b.drop 8).length = 1528 := by
    rw [List.length_drop, hlen]
  have e4 : (b.drop 8).take 1528 = b.drop 8 := by
    rw [← hdlen, List.take_length]
  have e5 : 1528 - (b.drop 8).length = 0 := by omega
  have hbytes4 : ∀ x ∈ b.take 4, x < 256 := fun x hx =>
    hbytes x (List.take_subset 4 b hx)
  have h44 : (b.take 4).length = 4 := by
    rw [List.length_take, hlen]
    decide
  have hte : be32 (beUint32 (b.take 4)) = b.take 4 :=
    be32_beUint32 (b.take 4) h44 hbytes4
  simp only [newChunkC2S2, chunkC2S2.Bytes, e4, e5, List.replicate_zero,
    List.append_nil, hte]
  refine ⟨?_, ?_, ?_⟩
  · simp [be32, h44, hdlen]
  · rw [List.append_assoc]
    nth_rewrite 1 [← h44]
    rw [List.take_left]
  · have h8 : (b.take 4 ++ be32 (now % 4294967296)).length = 8 := by
      simp [be32, h44]
    nth_rewrite 1 [← h8]
    rw [List.drop_left]

/-- C7 witness: the all-fives C1. -/
theorem claim_C7_s2_echoes_c1_witness :
    ((newChunkC2S2 ⟨beUint32 ((List.replicate 1536 5).take 4),
        (List.replicate 1536 5).drop 8⟩ 77).Bytes).length = 1536 ∧
    ((newChunkC2S2 ⟨beUint32 ((List.replicate 1536 5).take 4),
        (List.replicate 1536 5).drop 8⟩ 77).Bytes).take 4 =
      (List.replicate 1536 5).take 4 ∧
    ((newChunkC2S2 ⟨beUint32 ((List.replicate 1536 5).take 4),
        (List.replicate 1536 5).drop 8⟩ 77).Bytes).drop 8 =
      (List.replicate 1536 5).drop 8 :=
  claim_C7_s2_echoes_c1 (List.replicate 1536 5) 77
    ⟨beUint32 ((List.replicate 1536 5).take 4), (List.replicate 1536 5).drop 8⟩
    ((List.replicate 1536 5).drop 1536)
    (by rw [List.length_replicate])
    (fun x hx => by
      have := List.eq_of_mem_replicate hx
      omega)
    (by
      rw [readC1S1, readBytes, if_neg (by rw [List.length_replicate]; omega)]
      rw [show (List.replicate 1536 (5 : Nat)).take 1536 = List.replicate 1536 5 by
        rw [List.take_replicate]; norm_num])

/-- C6: given a peer stream supplying a full C0 byte `v`, a full 1536-byte
C1 and a full 1536-byte C2, `conn.handshake` (started on a fresh
connection) returns an error exactly when the C0 version byte exceeds 3 or
the C2 random-echo region (bytes [8,1536)) differs from the server's S1
random bytes, and it reaches `StateHandshakeDone` exactly when both checks
pass. -/
theorem claim_C6_handshake_error_iff (serverRandom : List Nat) (now v : Nat)
    (c1b c2b : List Nat) (c : Conn)
    (hc : c.state = .stateUninitialized)
    (h1 : c1b.length = 1536) (h2 : c2b.length = 1536) :
    ((handshake serverRandom now (v :: c1b ++ c2b) c).err = none ↔
      (v % 256 ≤ 3 ∧ c2b.drop 8 = serverRandom)) ∧
    ((handshake serverRandom now (v :: c1b ++ c2b) c).conn.state =
        .stateHandshakeDone ↔
      (v % 256 ≤ 3 ∧ c2b.drop 8 = serverRandom)) := by
  have hread0 : readC0S0 (v :: c1b ++ c2b) = .ok (⟨v % 256⟩, c1b ++ c2b) := rfl
  have e1 : (c1b ++ c2b).take 1536 = c1b := by rw [← h1, List.take_left]
  have e2 : (c1b ++ c2b).drop 1536 = c2b := by rw [← h1, List.drop_left]
  have hlen : ¬((c1b ++ c2b).length < 1536) := by
    rw [List.length_append, h1, h2]; omega
  have hread1 : readC1S1 (c1b ++ c2b) =
      .ok (⟨beUint32 (c1b.take 4), c1b.drop 8⟩, c2b) := by
    simp only [readC1S1, readBytes, if_neg hlen, e1, e2]
  have e3 : c2b.take 1536 = c2b := by rw [← h2, List.take_length]
  have hlen2 : ¬(c2b.length < 1536) := by omega
  have hread2 : readC2S2 c2b =
      .ok (⟨beUint32 (c2b.take 4), beUint32 ((c2b.drop 4).take 4),
            c2b.drop 8⟩, c2b.drop 1536) := by
    simp only [readC2S2, readBytes, if_neg hlen2, e3]
  unfold handshake
  simp only [hread0, hread1, hread2]
  by_cases hv : 3 < v % 256
  · rw [if_pos hv]
    simp [hc]
    omega
  · rw [if_neg hv]
    dsimp only
    by_cases he : c2b.drop 8 = serverRandom
    · rw [if_pos he]
      simp [he]
      omega
    · rw [if_neg he]
      simp [hc, he]

/-- C6 witness: a matching echo with version byte 3 succeeds. -/
theorem claim_C6_handshake_error_iff_witness :
    (handshake (List.replicate 1528 9) 0
      (3 :: List.replicate 1536 0 ++ (List.replicate 8 0 ++ List.replicate 1528 9))
      ⟨.stateUninitialized, 0, ""⟩).err = none :=
  ((claim_C6_handshake_error_iff (List.replicate 1528 9) 0 3
      (List.replicate 1536 0) (List.replicate 8 0 ++ List.replicate 1528 9)
      ⟨.stateUninitialized, 0, ""⟩ rfl
      (by rw [List.length_replicate])
      (by rw [List.length_append, List.length_replicate, List.length_replicate])).1).mpr
    ⟨by norm_num,
     by
       have h8 : (List.replicate 8 (0 : Nat)).length = 8 := List.length_replicate 8 0
       nth_rewrite 1 [← h8]
       rw [List.drop_left]⟩

/-- C9 witness: the empty body yields the bare 12-byte chunk header. -/
theorem claim_C9_onstatus_publish_header_witness :
    CreateOnStatusPublishStartMessage [] =
      .ok [3, 0, 0, 0, 0, 0, 0, 20, 0, 0, 0, 1] := by
  simpa using claim_C9_onstatus_publish_header [] (by decide)

end Rtmp
